import Mathlib

/-
Verification of the tab/session navigation controller of the amfora
browser (src/display/display.go) against its natural-language
specification.

The Go code is shallowly embedded: strings are Lean Strings handled
through their character lists (the inputs of interest are ASCII, so Go's
byte-based indexing and Lean's character-based indexing agree), Go ints
are Lean Ints, and the side-effecting calls of the handlers
(cache.RemovePage, URL(), NewTab(), Error(), ...) are recorded as an
ordered list of Actions emitted by the embedded handler.
-/

namespace Amfora

/-! ## Go standard-library string helpers (strings.*, strconv.Atoi) -/

/-- Model of Go strings.HasPrefix, on character lists (ASCII-faithful). -/
def strStartsWith (s p : String) : Bool :=
  p.toList.isPrefixOf s.toList

/-- Substring check on character lists: sub occurs contiguously in l. -/
def listHasSub (sub : List Char) : List Char → Bool
  | [] => sub.isEmpty
  | c :: r => sub.isPrefixOf (c :: r) || listHasSub sub r

/-- Model of Go strings.Contains (substring containment), on character lists. -/
def strContains (s sub : String) : Bool :=
  listHasSub sub.toList s.toList

/-- Model of Go len(s) (byte length; agrees with character count on ASCII). -/
def strLen (s : String) : Nat :=
  s.toList.length

/-- Model of the Go slice s[n:] (byte-based; agrees with characters on ASCII). -/
def strDrop (s : String) (n : Nat) : String :=
  String.mk (s.toList.drop n)

/-- Model of Go strings.TrimSpace. Lean's Char.isWhitespace covers the
whitespace characters relevant here (space, tab, newline, carriage return). -/
def trimSpace (s : String) : String :=
  String.mk (((s.toList.dropWhile Char.isWhitespace).reverse.dropWhile
    Char.isWhitespace).reverse)

/-- Numeric value of a list of decimal digit characters (used by atoi). -/
def digitsVal (l : List Char) : Int :=
  l.foldl (fun a c => a * 10 + ((c.toNat - 48 : Nat) : Int)) 0

/-- Helper for atoi: the digits part after an optional sign. -/
def atoiDigits (sign : Int) (digits : List Char) : Option Int :=
  if !digits.isEmpty && digits.all Char.isDigit then
    some (sign * digitsVal digits)
  else
    none

/-- Atoi on a character list: optional sign followed by the digits. -/
def atoiL : List Char → Option Int
  | [] => none
  | c :: cs =>
    if c = '+' then atoiDigits 1 cs
    else if c = '-' then atoiDigits (-1) cs
    else atoiDigits 1 (c :: cs)

/-- Model of Go strconv.Atoi: optional sign followed by one or more decimal
digits; anything else is an error (none). The Go original also errors on
values outside the machine-int range; the claims here never involve such
values, so the model is unbounded. -/
def atoi (s : String) : Option Int :=
  atoiL s.toList

/-! ## Go path.Clean

A direct port of Go's path.Clean (lexical path normalization). The output
buffer is kept reversed (head = most recently written character). -/

/-- Backtracking step of path.Clean for a ".." element: pop the output
buffer (reversed) until the popped character is a slash or the protected
length dotdot is reached, mirroring the index loop of the Go original. -/
def cleanBacktrack (dotdot : Nat) : Char → List Char → List Char
  | _, [] => []
  | removed, c :: rest =>
    if rest.length + 1 > dotdot ∧ removed ≠ '/' then cleanBacktrack dotdot c rest
    else c :: rest

/-- Main loop of path.Clean. fuel bounds the recursion and is at least the
length of the remaining input at every call, so it is never exhausted. -/
def cleanLoop (rooted : Bool) : Nat → Nat → List Char → List Char → List Char
  | 0, _, out, _ => out
  | _ + 1, _, out, [] => out
  | fuel + 1, dotdot, out, c :: r =>
    if c = '/' then
      cleanLoop rooted fuel dotdot out r
    else if c = '.' ∧ (r = [] ∨ r.head? = some '/') then
      cleanLoop rooted fuel dotdot out r
    else if c = '.' ∧ r.head? = some '.' ∧
        (r.tail = [] ∨ r.tail.head? = some '/') then
      if out.length > dotdot then
        cleanLoop rooted fuel dotdot
          (match out with
           | [] => []
           | x :: xs => cleanBacktrack dotdot x xs) r.tail
      else if !rooted then
        let out2 := if out.length > 0 then '/' :: out else out
        cleanLoop rooted fuel (out2.length + 2) ('.' :: '.' :: out2) r.tail
      else
        cleanLoop rooted fuel dotdot out r.tail
    else
      let out2 :=
        if (rooted ∧ out.length ≠ 1) ∨ (!rooted ∧ out.length ≠ 0) then
          '/' :: out
        else out
      let seg := (c :: r).takeWhile (fun x => x ≠ '/')
      let rest2 := (c :: r).dropWhile (fun x => x ≠ '/')
      cleanLoop rooted fuel dotdot (seg.reverse ++ out2) rest2

/-- Model of Go path.Clean. -/
def pathClean (p : String) : String :=
  if p = "" then "."
  else
    let cs := p.toList
    let rooted := cs.head? = some '/'
    let res :=
      if rooted then cleanLoop true (cs.length + 1) 1 ['/'] cs.tail
      else cleanLoop false (cs.length + 1) 0 [] cs
    if res = [] then "." else String.mk res.reverse

/-! ## Model of net/url (the subset the handlers rely on)

Go's url.Parse accepts almost any string; since Go 1.12 it fails exactly
when the raw URL contains an ASCII control byte. The structural parse
below handles the scheme://host/path?query shapes that occur in this
program (fragments, userinfo and opaque URLs are not used by the code
under verification and are omitted). -/

structure GoURL where
  scheme : String
  host : String
  path : String
  rawQuery : String
deriving Repr, DecidableEq

/-- Split a character list at the first occurrence of sep, returning the
part before and the part after (sep removed); none if sep never occurs. -/
def splitAtSub (sep : List Char) : List Char → Option (List Char × List Char)
  | [] => if sep.isEmpty then some ([], []) else none
  | c :: r =>
    if sep.isPrefixOf (c :: r) then some ([], (c :: r).drop sep.length)
    else (splitAtSub sep r).map fun p => (c :: p.1, p.2)

/-- Split off a ?query suffix from a path-and-query character list. -/
def splitQuery (cs : List Char) : List Char × List Char :=
  (cs.takeWhile (fun c => c ≠ '?'),
   match cs.dropWhile (fun c => c ≠ '?') with
   | '?' :: q => q
   | _ => [])

/-- Structural part of the url.Parse model. -/
def parseURLCore (cs : List Char) : GoURL :=
  match splitAtSub "://".toList cs with
  | some (sch, rest) =>
    let hostPart := rest.takeWhile (fun c => c ≠ '/' ∧ c ≠ '?')
    let after := rest.dropWhile (fun c => c ≠ '/' ∧ c ≠ '?')
    let pq := splitQuery after
    { scheme := String.mk sch, host := String.mk hostPart,
      path := String.mk pq.1, rawQuery := String.mk pq.2 }
  | none =>
    let pq := splitQuery cs
    { scheme := "", host := "", path := String.mk pq.1,
      rawQuery := String.mk pq.2 }

/-- Total parse (the structural part always succeeds on control-free input). -/
def parseURL (s : String) : GoURL :=
  parseURLCore s.toList

/-- Go url.Parse fails exactly on ASCII control bytes (Go >= 1.12). -/
def containsCtlByte (s : String) : Bool :=
  s.toList.any fun c => c.toNat < 32 || c.toNat = 127

/-- Model of Go url.Parse: control byte means a parse error (nil, err). -/
def parseURLOpt (s : String) : Option GoURL :=
  if containsCtlByte s then none else some (parseURL s)

/-- Model of url.URL.String() for the subset parsed above. -/
def urlString (u : GoURL) : String :=
  (if u.scheme ≠ "" then u.scheme ++ "://" ++ u.host
   else if u.host ≠ "" then "//" ++ u.host
   else "") ++ u.path ++
  (if u.rawQuery ≠ "" then "?" ++ u.rawQuery else "")

/-- Directory part of a path (everything up to and including the last
slash), used when merging a relative reference with a base path. -/
def mergePaths (base ref : List Char) : List Char :=
  (base.reverse.dropWhile (fun c => c ≠ '/')).reverse ++ ref

/-- Model of url.URL.ResolveReference (RFC 3986 reference resolution),
simplified to the cases exercised by this program: an absolute reference
wins outright, a protocol-relative one takes the base scheme, a rooted
path replaces the base path, and a relative path is merged with the base
directory and normalized lexically. -/
def resolveReference (base ref : GoURL) : GoURL :=
  if ref.scheme ≠ "" then ref
  else if ref.host ≠ "" then { ref with scheme := base.scheme }
  else if ref.path = "" then
    { base with
      rawQuery := if ref.rawQuery = "" then base.rawQuery else ref.rawQuery }
  else if strStartsWith ref.path "/" then
    { base with path := ref.path, rawQuery := ref.rawQuery }
  else
    let merged := String.mk (mergePaths base.path.toList ref.path.toList)
    let cleaned := pathClean merged
    let cleaned :=
      if strStartsWith (String.mk ref.path.toList.reverse) "/" ∧
          ¬strStartsWith (String.mk cleaned.toList.reverse) "/" then
        cleaned ++ "/"
      else cleaned
    { base with path := cleaned, rawQuery := ref.rawQuery }

/-! ## Model of url.QueryEscape (query-string escaping)

Modelled from the spec: queryEscape lives in a file of the display
package that is not part of the sources under verification; the spec says
search terms are "combined with the configured search endpoint via
query-string escaping", which is Go's url.QueryEscape. ASCII-faithful:
space becomes '+', unreserved bytes pass through, the rest is
percent-encoded with uppercase hex. -/

def hexDigitChar (n : Nat) : Char :=
  if n < 10 then Char.ofNat (48 + n) else Char.ofNat (55 + n)

def queryEscape (s : String) : String :=
  String.mk (s.toList.foldr
    (fun c acc =>
      if c = ' ' then '+' :: acc
      else if c.isAlphanum || c = '-' || c = '_' || c = '.' || c = '~' then
        c :: acc
      else
        '%' :: hexDigitChar (c.toNat / 16) :: hexDigitChar (c.toNat % 16) :: acc)
    [])

/-! ## The bottom-bar command handler (display.go, Init, SetDoneFunc)

The handler's externally visible behaviour is recorded as an ordered list
of Actions: each constructor names the call the Go code makes at that
point. reset stands for the reset closure (clear label, applyAll,
refocus); nilDeref marks the nil-pointer dereference the Go code performs
when it calls ResolveReference on the discarded-error result of parsing
the base URL. -/

inductive Action where
  | saveScroll
  | reset
  | removePage (u : String)
  | removeFavicon (host : String)
  | navigateURL (u : String)
  | handleURL (u : String)
  | newTab
  | errorNotice (title msg : String)
  | followLink (base ref : String)
  | applyBottomBar
  | applyAll (idx : Int)
  | stop
  | nilDeref
deriving Repr, DecidableEq

/-- Inputs the Enter branch of the handler reads: the typed query, the
current tab's page URL and links, the hasContent() flag of the current
tab (hasContent is defined in a file outside the verified sources and is
abstracted as a flag), and the configured search endpoint
(viper "a-general.search"). -/
structure EnterCtx where
  query : String
  pageURL : String
  links : List String
  hasContent : Bool
  searchURL : String
deriving Repr, DecidableEq

/-- The URL-versus-search test of the handler, verbatim from the code:
strings.Contains(query, " ") || (!strings.Contains(query, "//") &&
!strings.Contains(query, ".") && !strings.HasPrefix(query, "about:")). -/
def searchCond (q : String) : Bool :=
  strContains q " " ||
    (!strContains q "//" && !strContains q "." && !strStartsWith q "about:")

/-- Search target: viper.GetString("a-general.search") + "?" + queryEscape(query). -/
def searchTarget (ctx : EnterCtx) : String :=
  ctx.searchURL ++ "?" ++ queryEscape ctx.query

/-- The double-slash fixup after the directory-up Clean: a path of "//"
(which Clean produces at the domain root) collapses to "/". -/
def collapseRootSlash (p : String) : String :=
  if p = "//" then "/" else p

/-- The in-range part of the "new:<number>" branch: open a new tab, parse
the base URL discarding the error, parse the link checking the error, and
either show the URL Error notice, dereference nil, or navigate to the
resolved link. -/
def newTabBranch (ctx : EnterCtx) (i : Int) : List Action :=
  if i ≤ (ctx.links.length : Int) ∧ 0 < i then
    match parseURLOpt (ctx.links.getD (i - 1).toNat "") with
    | none => [.newTab, .errorNotice "URL Error" "link URL could not be parsed",
               .reset]
    | some nextParsed =>
      match parseURLOpt ctx.pageURL with
      | none => [.newTab, .nilDeref]
      | some prevParsed =>
        [.newTab, .navigateURL (urlString (resolveReference prevParsed nextParsed))]
  else
    [.reset]

/-- The Enter case of bottomBar.SetDoneFunc in display.go's Init,
translated branch for branch. The leading saveScroll is the
tabs[tab].saveScroll() call made before the key switch. -/
def doneEnter (ctx : EnterCtx) : List Action :=
  Action.saveScroll ::
  (if trimSpace ctx.query = "" then
    [.reset]
  else if ctx.query = ".." ∧ ctx.hasContent = true then
    match parseURLOpt ctx.pageURL with
    | none => []
    | some parsed =>
      if parsed.path = "/" then
        [.reset]
      else
        let newPath := collapseRootSlash (pathClean (parsed.path ++ "/..") ++ "/")
        [.navigateURL (urlString { parsed with path := newPath, rawQuery := "" })]
  else
    match atoi ctx.query with
    | none =>
      if strStartsWith ctx.query "new:" = true ∧ 4 < strLen ctx.query then
        match atoi (strDrop ctx.query 4) with
        | none => [.reset]
        | some i => newTabBranch ctx i
      else
        if searchCond ctx.query = true then
          [.removePage (searchTarget ctx), .navigateURL (searchTarget ctx)]
        else
          [.removePage ctx.query, .navigateURL ctx.query]
    | some i =>
      if i ≤ (ctx.links.length : Int) ∧ 0 < i then
        [.followLink ctx.pageURL (ctx.links.getD (i - 1).toNat "")]
      else
        [.reset])

/-! ## SwitchTab (display.go) -/

/-- The index computation of SwitchTab: clamp the argument into
[0, NumTabs-1], then take it modulo NumTabs (Go's % truncates toward
zero, which is Int.tmod). -/
def switchTabClamp (t numTabs : Int) : Int :=
  let t1 := if t < 0 then 0 else t
  let t2 := if t1 > numTabs - 1 then numTabs - 1 else t1
  Int.tmod t2 numTabs

/-! ## CloseTab (display.go) -/

structure Session where
  numTabs : Nat
  curTab : Int
deriving Repr, DecidableEq

inductive CloseOutcome where
  | noop
  | stopped
  | closed
deriving Repr, DecidableEq

/-- CloseTab, translated branch for branch: only the rightmost tab may be
closed (else no state change); the sole remaining tab stops the app; else
the rightmost tab is removed, the current index moves left, and the new
current tab's saved state is reapplied (applyAll). -/
def closeTab (s : Session) : Session × CloseOutcome × List Action :=
  if s.curTab ≠ (s.numTabs : Int) - 1 then
    (s, .noop, [])
  else if s.numTabs ≤ 1 then
    (s, .stopped, [.stop])
  else
    let numTabs2 := s.numTabs - 1
    let cur2 := if s.curTab ≤ 0 then (numTabs2 : Int) - 1 else s.curTab - 1
    ({ numTabs := numTabs2, curTab := cur2 }, .closed, [.applyAll cur2])

/-! ## Reload and history (display.go plus the parts of the display
package that the sources under verification only call) -/

structure Page where
  url : String
  links : List String
deriving Repr, DecidableEq

/-- Per-tab state for the reload/navigation model: the page, the history
entries with cursor (tab.history), and the hasContent() flag (defined
outside the verified sources, abstracted as a flag). -/
structure TabM where
  page : Page
  history : List String
  histPos : Int
  hasContent : Bool
deriving Repr, DecidableEq

/-- Modelled from the spec: History append (§4.1) as performed by
addToHistory — entries after the cursor are dropped, the URL is appended,
and the cursor moves to the new end. -/
def histAppend (h : List String) (pos : Int) (u : String) :
    List String × Int :=
  let h2 := if pos < (h.length : Int) - 1 then h.take (pos + 1).toNat else h
  (h2 ++ [u], (h2.length : Int))

/-- Modelled from the spec: handleURL (not in the verified sources)
fetches the URL and replaces the owning tab's page; it does not touch the
history. The fetched page is a parameter since the fetcher is an external
collaborator. -/
def handleURLModel (t : TabM) (fetched : Page) : TabM :=
  { t with page := fetched }

/-- Modelled from the spec: goURL = handleURL followed by addToHistory
(the Reload code comments that goURL is not used because history should
not be added to). -/
def goURLModel (t : TabM) (u : String) (fetched : Page) : TabM :=
  let t2 := handleURLModel t fetched
  let hp := histAppend t.history t.histPos u
  { t2 with history := hp.1, histPos := hp.2 }

/-- Reload, translated from display.go: nothing happens without content;
otherwise the page cache entry for the current URL and the favicon cache
entry for its host are evicted, handleURL re-fetches (modelled by the
fetched parameter), and the bottom-bar state is reapplied only when the
goroutine's tab is still the current tab at completion (stillCurrent). -/
def reload (t : TabM) (fetched : Page) (stillCurrent : Bool) :
    TabM × List Action :=
  if t.hasContent = false then
    (t, [])
  else
    let parsed := parseURL t.page.url
    (handleURLModel t fetched,
     [.removePage t.page.url, .removeFavicon parsed.host,
      .handleURL t.page.url] ++
       (if stillCurrent then [.applyBottomBar] else []))

/-! ## The number-key handler (display.go, Init, SetInputCapture) -/

/-- The digit-key branch of the global key handler for a non-loading tab:
the rune is parsed as a number, 0 stands for link 10, and an in-range
number follows that link on the current page. -/
def digitKeyActions (r : Char) (pageURL : String) (links : List String) :
    List Action :=
  match atoi (String.mk [r]) with
  | none => []
  | some i0 =>
    let i := if i0 = 0 then 10 else i0
    if i ≤ (links.length : Int) ∧ 0 < i then
      [.followLink pageURL (links.getD (i - 1).toNat "")]
    else
      []

/-! ## Helper lemmas -/

/-- A string that starts with a non-digit, non-sign character is not a
Go integer. -/
theorem atoiL_cons_none (c : Char) (t : List Char) (hp : c ≠ '+')
    (hm : c ≠ '-') (hd : c.isDigit = false) : atoiL (c :: t) = none := by
  simp only [atoiL, if_neg hp, if_neg hm, atoiDigits]
  rw [if_neg]
  simp [hd]

/-- A query that starts with the prefix new: is rejected by strconv.Atoi. -/
theorem atoi_none_of_new (q : String) (h : strStartsWith q "new:" = true) :
    atoi q = none := by
  unfold strStartsWith at h
  rw [List.isPrefixOf_iff_prefix] at h
  obtain ⟨t, ht⟩ := h
  have hq : q.toList = 'n' :: 'e' :: 'w' :: ':' :: t := by
    rw [← ht]; rfl
  rw [atoi, hq]
  exact atoiL_cons_none _ _ (by decide) (by decide) (by decide)

/-- A string whose first character is not whitespace does not trim to the
empty string. -/
theorem trimSpace_ne_empty (q : String) (c : Char) (t : List Char)
    (hq : q.toList = c :: t) (hc : c.isWhitespace = false) :
    trimSpace q ≠ "" := by
  unfold trimSpace
  rw [hq]
  intro hcontra
  have hnil : (((c :: t).dropWhile Char.isWhitespace).reverse.dropWhile
      Char.isWhitespace).reverse = [] := by
    have := congrArg String.toList hcontra
    simpa using this
  rw [List.dropWhile_cons_of_neg (by simp [hc])] at hnil
  rw [List.reverse_eq_nil_iff, List.dropWhile_eq_nil_iff] at hnil
  have hcmem : c ∈ (c :: t).reverse := by simp
  have := hnil c hcmem
  rw [hc] at this
  cases this

/-- A query that starts with new: is not the literal string "..". -/
theorem ne_dotdot_of_new (q : String) (h : strStartsWith q "new:" = true) :
    q ≠ ".." := by
  unfold strStartsWith at h
  rw [List.isPrefixOf_iff_prefix] at h
  obtain ⟨t, ht⟩ := h
  intro hcontra
  rw [hcontra] at ht
  cases ht

/-- Reduction of the Enter handler for a well-formed new:-prefixed query:
it runs the new-tab branch with the parsed number. -/
theorem doneEnter_newNum (ctx : EnterCtx) (i : Int)
    (hpre : strStartsWith ctx.query "new:" = true)
    (hlen : 4 < strLen ctx.query)
    (hi : atoi (strDrop ctx.query 4) = some i) :
    doneEnter ctx = Action.saveScroll :: newTabBranch ctx i := by
  have hatoi : atoi ctx.query = none := atoi_none_of_new _ hpre
  have hq : ∃ t, ctx.query.toList = 'n' :: t := by
    have h := hpre
    unfold strStartsWith at h
    rw [List.isPrefixOf_iff_prefix] at h
    obtain ⟨t, ht⟩ := h
    exact ⟨'e' :: 'w' :: ':' :: t, by rw [← ht]; rfl⟩
  obtain ⟨t, ht⟩ := hq
  have htrim : trimSpace ctx.query ≠ "" :=
    trimSpace_ne_empty _ _ _ ht (by decide)
  have hdd : ¬(ctx.query = ".." ∧ ctx.hasContent = true) :=
    fun h => ne_dotdot_of_new _ hpre h.1
  simp only [doneEnter, hatoi]
  rw [if_neg htrim, if_neg hdd, if_pos ⟨hpre, hlen⟩, hi]

/-! ## Claim C1 -/

/-- Claim C1 counterexample: the input "new:abc" is non-empty, is not "..",
is not a plain integer, and is not a "new:" number command (its suffix
"abc" is not a number), and it satisfies the claim's search condition
(no space, no "//", no ".", no "about:"), so the claim requires it to be
treated as a search query; but the handler resets the UI and issues
neither a cache invalidation nor a navigation, because any input starting
with "new:" is captured by the new-tab branch before the URL-versus-search
test is reached. -/
theorem c1_counterexample :
    trimSpace "new:abc" ≠ "" ∧
    "new:abc" ≠ ".." ∧
    atoi "new:abc" = none ∧
    atoi (strDrop "new:abc" 4) = none ∧
    searchCond "new:abc" = true ∧
    doneEnter { query := "new:abc", pageURL := "gemini://host/", links := [],
                hasContent := true, searchURL := "gemini://gus.guru/search" } =
      [.saveScroll, .reset] := by
  decide

/-- Claim C1 (amended): for every non-empty, non-whitespace input that is
not "..", not a plain integer, and does not start with "new:" followed by
at least one character, the handler treats the input as a search query
exactly when it contains a space or contains neither "//" nor "." and
does not start with "about:"; otherwise it treats it as a literal URL;
and in both branches the cached response for the resulting target URL is
removed before the navigation is issued (the removePage action precedes
the navigateURL action for the same URL). -/
theorem c1_search_or_url (ctx : EnterCtx)
    (h1 : trimSpace ctx.query ≠ "")
    (h2 : ctx.query ≠ "..")
    (h3 : atoi ctx.query = none)
    (h4 : ¬(strStartsWith ctx.query "new:" = true ∧ 4 < strLen ctx.query)) :
    doneEnter ctx =
      if searchCond ctx.query = true then
        [.saveScroll, .removePage (searchTarget ctx),
         .navigateURL (searchTarget ctx)]
      else
        [.saveScroll, .removePage ctx.query, .navigateURL ctx.query] := by
  simp only [doneEnter, h3]
  rw [if_neg h1, if_neg (fun h => h2 h.1), if_neg h4]
  by_cases hs : searchCond ctx.query = true
  · rw [if_pos hs, if_pos hs]
  · rw [if_neg hs, if_neg hs]

/-- Claim C1 witness: the search input "search terms here" and the URL
input "example.org/page" from the spec's own examples, run through the
amended theorem. -/
theorem c1_search_or_url_witness :
    (trimSpace "search terms here" ≠ "" ∧ searchCond "search terms here" = true ∧
     doneEnter { query := "search terms here", pageURL := "gemini://host/",
                 links := [], hasContent := true,
                 searchURL := "gemini://gus.guru/search" } =
       [.saveScroll, .removePage "gemini://gus.guru/search?search+terms+here",
        .navigateURL "gemini://gus.guru/search?search+terms+here"]) ∧
    (searchCond "example.org/page" = false ∧
     doneEnter { query := "example.org/page", pageURL := "gemini://host/",
                 links := [], hasContent := true,
                 searchURL := "gemini://gus.guru/search" } =
       [.saveScroll, .removePage "example.org/page",
        .navigateURL "example.org/page"]) := by
  refine ⟨⟨by decide, by decide, ?_⟩, ⟨by decide, ?_⟩⟩
  · rw [c1_search_or_url _ (by decide) (by decide) (by decide) (by decide)]
    decide
  · rw [c1_search_or_url _ (by decide) (by decide) (by decide) (by decide)]
    decide

/-! ## Claim C2 -/

/-- Claim C2: directory-up on "..". The three concrete cases of the claim:
gemini://host/test/foo/ goes up to gemini://host/test/, gemini://host/test
goes up to gemini://host/, and gemini://host/ is a no-op (UI reset only);
and in general, for a current URL that parses with root path the handler
only resets, while for any other path it navigates to the URL whose path
is Clean(path + "/..") + "/" with a root "//" collapsed to "/" and whose
query string is cleared. -/
theorem c2_up_directory :
    doneEnter { query := "..", pageURL := "gemini://host/test/foo/",
                links := [], hasContent := true, searchURL := "gemini://s" } =
      [.saveScroll, .navigateURL "gemini://host/test/"] ∧
    doneEnter { query := "..", pageURL := "gemini://host/test",
                links := [], hasContent := true, searchURL := "gemini://s" } =
      [.saveScroll, .navigateURL "gemini://host/"] ∧
    doneEnter { query := "..", pageURL := "gemini://host/",
                links := [], hasContent := true, searchURL := "gemini://s" } =
      [.saveScroll, .reset] ∧
    ∀ ctx : EnterCtx, ∀ parsed : GoURL,
      ctx.query = ".." → ctx.hasContent = true →
      parseURLOpt ctx.pageURL = some parsed →
      (parsed.path = "/" → doneEnter ctx = [.saveScroll, .reset]) ∧
      (parsed.path ≠ "/" → doneEnter ctx =
        [.saveScroll, .navigateURL (urlString { parsed with
           path := collapseRootSlash (pathClean (parsed.path ++ "/..") ++ "/"),
           rawQuery := "" })]) := by
  refine ⟨by decide, by decide, by decide, ?_⟩
  intro ctx parsed hq hc hp
  constructor
  · intro hroot
    simp only [doneEnter, hq, hp]
    rw [if_neg (by decide), if_pos ⟨trivial, hc⟩, if_pos hroot]
  · intro hnotroot
    simp only [doneEnter, hq, hp]
    rw [if_neg (by decide), if_pos ⟨trivial, hc⟩, if_neg hnotroot]

/-- Claim C2 witness: the general part of the up-directory theorem applied
to the URL gemini://h/abc/def/?x=1, whose parsed path is not the root;
the computed target drops the last segment and clears the query. -/
theorem c2_up_directory_witness :
    parseURLOpt "gemini://h/abc/def/?x=1" =
      some { scheme := "gemini", host := "h", path := "/abc/def/",
             rawQuery := "x=1" } ∧
    doneEnter { query := "..", pageURL := "gemini://h/abc/def/?x=1",
                links := [], hasContent := true, searchURL := "gemini://s" } =
      [.saveScroll, .navigateURL "gemini://h/abc/"] := by
  refine ⟨by decide, ?_⟩
  have h := (c2_up_directory.2.2.2
    { query := "..", pageURL := "gemini://h/abc/def/?x=1", links := [],
      hasContent := true, searchURL := "gemini://s" }
    { scheme := "gemini", host := "h", path := "/abc/def/", rawQuery := "x=1" }
    rfl rfl (by decide)).2 (by decide)
  rw [h]
  decide

/-! ## Claim C3 -/

/-- Claim C3: a "new:" number command. When the parsed number i is within
1..len(links) and both the current page URL and the chosen link parse, a
new tab is opened and a navigation is issued to links at position i-1
resolved against the current page's URL; when i is out of that range no
new tab is opened and the handler only resets the UI. -/
theorem c3_new_number_command (ctx : EnterCtx) (i : Int)
    (hpre : strStartsWith ctx.query "new:" = true)
    (hlen : 4 < strLen ctx.query)
    (hi : atoi (strDrop ctx.query 4) = some i) :
    (∀ base nextRef : GoURL, 0 < i → i ≤ (ctx.links.length : Int) →
      parseURLOpt ctx.pageURL = some base →
      parseURLOpt (ctx.links.getD (i - 1).toNat "") = some nextRef →
      doneEnter ctx =
        [.saveScroll, .newTab,
         .navigateURL (urlString (resolveReference base nextRef))]) ∧
    ((i ≤ 0 ∨ (ctx.links.length : Int) < i) →
      doneEnter ctx = [.saveScroll, .reset]) := by
  rw [doneEnter_newNum ctx i hpre hlen hi]
  constructor
  · intro base nextRef h0 hle hbase hnext
    unfold newTabBranch
    rw [if_pos ⟨hle, h0⟩, hnext, hbase]
  · intro hout
    unfold newTabBranch
    rw [if_neg (by omega)]

/-- Claim C3 witness: the spec's own example. The command "new:3" on a
page with five links opens a new tab and navigates to the third link
(which is absolute, so resolution returns it unchanged); on a page with
only two links the same command only resets the UI. -/
theorem c3_new_number_command_witness :
    doneEnter { query := "new:3", pageURL := "gemini://host/",
                links := ["gemini://a/", "gemini://b/", "gemini://c/",
                          "gemini://d/", "gemini://e/"],
                hasContent := true, searchURL := "gemini://s" } =
      [.saveScroll, .newTab, .navigateURL "gemini://c/"] ∧
    doneEnter { query := "new:3", pageURL := "gemini://host/",
                links := ["gemini://a/", "gemini://b/"],
                hasContent := true, searchURL := "gemini://s" } =
      [.saveScroll, .reset] := by
  constructor
  · have h := (c3_new_number_command
      { query := "new:3", pageURL := "gemini://host/",
        links := ["gemini://a/", "gemini://b/", "gemini://c/",
                  "gemini://d/", "gemini://e/"],
        hasContent := true, searchURL := "gemini://s" } 3
      (by decide) (by decide) (by decide)).1
      { scheme := "gemini", host := "host", path := "/", rawQuery := "" }
      { scheme := "gemini", host := "c", path := "/", rawQuery := "" }
      (by decide) (by decide) (by decide) (by decide)
    rw [h]
    decide
  · exact (c3_new_number_command
      { query := "new:3", pageURL := "gemini://host/",
        links := ["gemini://a/", "gemini://b/"],
        hasContent := true, searchURL := "gemini://s" } 3
      (by decide) (by decide) (by decide)).2 (by decide)

/-! ## Claim C8 -/

/-- Claim C8 counterexample: the claim says a URLError notice is surfaced
whenever either the base URL or the link reference cannot be parsed. For
the command "new:1" on a page whose own URL contains a control byte (so
url.Parse fails on the base) while the link itself parses, the handler
surfaces no notice at all: the base parse error is discarded (the Go code
ignores that error and goes on to dereference the nil result). -/
theorem c8_counterexample :
    parseURLOpt "\x01gemini://host/" = none ∧
    parseURLOpt "gemini://x/" ≠ none ∧
    doneEnter { query := "new:1", pageURL := "\x01gemini://host/",
                links := ["gemini://x/"], hasContent := true,
                searchURL := "gemini://s" } =
      [.saveScroll, .newTab, .nilDeref] ∧
    (doneEnter { query := "new:1", pageURL := "\x01gemini://host/",
                 links := ["gemini://x/"], hasContent := true,
                 searchURL := "gemini://s" }).all
      (fun a => match a with
        | .errorNotice _ _ => false
        | _ => true) = true := by
  decide

/-- Claim C8 (amended): at the link-resolution site of the "new:" number
branch, a link reference that cannot be parsed aborts the navigation with
the URL Error notice (and a UI reset); a failure to parse the base URL is
not detected there, because its error is discarded. -/
theorem c8_link_error_notice (ctx : EnterCtx) (i : Int)
    (hpre : strStartsWith ctx.query "new:" = true)
    (hlen : 4 < strLen ctx.query)
    (hi : atoi (strDrop ctx.query 4) = some i)
    (h0 : 0 < i) (hle : i ≤ (ctx.links.length : Int))
    (hbad : parseURLOpt (ctx.links.getD (i - 1).toNat "") = none) :
    doneEnter ctx =
      [.saveScroll, .newTab,
       .errorNotice "URL Error" "link URL could not be parsed", .reset] := by
  rw [doneEnter_newNum ctx i hpre hlen hi]
  unfold newTabBranch
  rw [if_pos ⟨hle, h0⟩, hbad]

/-- Claim C8 witness: the command "new:1" on a page whose only link
contains a control byte; the handler opens the tab, fails to parse the
link, and surfaces the URL Error notice. -/
theorem c8_link_error_notice_witness :
    doneEnter { query := "new:1", pageURL := "gemini://host/",
                links := ["\x01bad"], hasContent := true,
                searchURL := "gemini://s" } =
      [.saveScroll, .newTab,
       .errorNotice "URL Error" "link URL could not be parsed", .reset] :=
  c8_link_error_notice
    { query := "new:1", pageURL := "gemini://host/", links := ["\x01bad"],
      hasContent := true, searchURL := "gemini://s" } 1
    (by decide) (by decide) (by decide) (by decide) (by decide) (by decide)

/-! ## Claim C4 -/

/-- The SwitchTab index computation lands in the valid range whenever at
least one tab exists. -/
theorem switchTabClamp_valid (t n : Int) (hn : 1 ≤ n) :
    0 ≤ switchTabClamp t n ∧ switchTabClamp t n < n := by
  unfold switchTabClamp
  have h2 : 0 ≤ (if (if t < 0 then 0 else t) > n - 1 then n - 1
      else if t < 0 then 0 else t) := by
    split <;> split <;> omega
  exact ⟨Int.tmod_nonneg n h2, Int.tmod_lt_of_pos _ (by omega)⟩

/-- Claim C4: SwitchTab clamps its argument into the valid range and then
reduces it modulo the tab count, so for any session with at least one tab
the resulting current-tab index is valid; in particular the relative
calls current-1 and current+1, the wrap-around call (current-1+n) mod n,
and the overshooting call n+5 all land on a valid index. -/
theorem c4_switch_tab_valid (t c n : Int) (hn : 1 ≤ n)
    (hc : 0 ≤ c ∧ c < n) :
    (0 ≤ switchTabClamp t n ∧ switchTabClamp t n < n) ∧
    (0 ≤ switchTabClamp (c - 1) n ∧ switchTabClamp (c - 1) n < n) ∧
    (0 ≤ switchTabClamp (c + 1) n ∧ switchTabClamp (c + 1) n < n) ∧
    (0 ≤ switchTabClamp (Int.tmod (c - 1 + n) n) n ∧
      switchTabClamp (Int.tmod (c - 1 + n) n) n < n) ∧
    (0 ≤ switchTabClamp (n + 5) n ∧ switchTabClamp (n + 5) n < n) :=
  ⟨switchTabClamp_valid t n hn, switchTabClamp_valid _ n hn,
   switchTabClamp_valid _ n hn, switchTabClamp_valid _ n hn,
   switchTabClamp_valid _ n hn⟩

/-- Claim C4 witness: three tabs, current tab 2, an arbitrary argument 7. -/
theorem c4_switch_tab_valid_witness :
    (1 : Int) ≤ 3 ∧ (0 : Int) ≤ 2 ∧ (2 : Int) < 3 ∧
    (0 ≤ switchTabClamp 7 3 ∧ switchTabClamp 7 3 < 3) ∧
    (0 ≤ switchTabClamp (3 + 5) 3 ∧ switchTabClamp (3 + 5) 3 < 3) :=
  ⟨by decide, by decide, by decide,
   (c4_switch_tab_valid 7 2 3 (by decide) ⟨by decide, by decide⟩).1,
   (c4_switch_tab_valid 7 2 3 (by decide) ⟨by decide, by decide⟩).2.2.2.2⟩

/-! ## Claim C5 -/

/-- Claim C5: CloseTab is a no-op when the current tab is not the
rightmost; it stops the session when the current tab is the sole
remaining one; otherwise it removes the rightmost tab, moves the current
index one to the left (which equals the value clamped at zero, since the
index was at least 1), and reapplies that tab's saved UI state. -/
theorem c5_close_tab (s : Session)
    (hvalid : 0 ≤ s.curTab ∧ s.curTab < (s.numTabs : Int)) :
    (s.curTab ≠ (s.numTabs : Int) - 1 → closeTab s = (s, .noop, [])) ∧
    (s.curTab = (s.numTabs : Int) - 1 → s.numTabs = 1 →
      closeTab s = (s, .stopped, [.stop])) ∧
    (s.curTab = (s.numTabs : Int) - 1 → 2 ≤ s.numTabs →
      closeTab s = ({ numTabs := s.numTabs - 1, curTab := s.curTab - 1 },
                    .closed, [.applyAll (s.curTab - 1)]) ∧
      s.curTab - 1 = max (s.curTab - 1) 0) := by
  refine ⟨?_, ?_, ?_⟩
  · intro hne
    unfold closeTab
    rw [if_pos hne]
  · intro heq hone
    unfold closeTab
    rw [if_neg (fun h => h heq), if_pos (by omega)]
  · intro heq htwo
    refine ⟨?_, by omega⟩
    simp only [closeTab]
    rw [if_neg (fun h => h heq), if_neg (show ¬s.numTabs ≤ 1 by omega),
        if_neg (show ¬s.curTab ≤ 0 by omega)]

/-- Claim C5 witness: a session of three tabs with the rightmost current;
closing removes it and makes tab 1 current, reapplying its state. -/
theorem c5_close_tab_witness :
    closeTab { numTabs := 3, curTab := 2 } =
      ({ numTabs := 2, curTab := 1 }, .closed, [.applyAll 1]) ∧
    closeTab { numTabs := 3, curTab := 0 } =
      ({ numTabs := 3, curTab := 0 }, .noop, []) ∧
    closeTab { numTabs := 1, curTab := 0 } =
      ({ numTabs := 1, curTab := 0 }, .stopped, [.stop]) :=
  ⟨((c5_close_tab { numTabs := 3, curTab := 2 }
      ⟨by decide, by decide⟩).2.2 (by decide) (by decide)).1,
   (c5_close_tab { numTabs := 3, curTab := 0 }
      ⟨by decide, by decide⟩).1 (by decide),
   (c5_close_tab { numTabs := 1, curTab := 0 }
      ⟨by decide, by decide⟩).2.1 (by decide) (by decide)⟩

/-! ## Claim C6 -/

/-- Claim C6: reloading a tab with content first evicts the cached
response for the current URL and the cached favicon keyed by the URL's
host and then re-navigates through handleURL; the tab's history entries
and position are unchanged by the reload, whereas a user-initiated
navigation to the same URL (goURL) appends a history entry. -/
theorem c6_reload_no_history (t : TabM) (fetched : Page) (still : Bool)
    (hc : t.hasContent = true) :
    (reload t fetched still).1.history = t.history ∧
    (reload t fetched still).1.histPos = t.histPos ∧
    (reload t fetched still).2 =
      [.removePage t.page.url, .removeFavicon (parseURL t.page.url).host,
       .handleURL t.page.url] ++
        (if still then [.applyBottomBar] else []) ∧
    (t.histPos = (t.history.length : Int) - 1 →
      (goURLModel t t.page.url fetched).history = t.history ++ [t.page.url] ∧
      (goURLModel t t.page.url fetched).histPos = (t.history.length : Int)) := by
  have hne : ¬ t.hasContent = false := by rw [hc]; decide
  refine ⟨?_, ?_, ?_, ?_⟩
  · simp [reload, hne, handleURLModel]
  · simp [reload, hne, handleURLModel]
  · simp [reload, hne]
  · intro hpos
    unfold goURLModel histAppend
    rw [if_neg (by omega)]
    exact ⟨rfl, rfl⟩

/-- Claim C6 witness: a loaded tab showing gemini://h/a with a two-entry
history at position 1; reload keeps the history, goURL appends. -/
theorem c6_reload_no_history_witness :
    (reload { page := { url := "gemini://h/a", links := [] },
              history := ["gemini://h/", "gemini://h/a"], histPos := 1,
              hasContent := true }
            { url := "gemini://h/a", links := ["x"] } true).1.history =
      ["gemini://h/", "gemini://h/a"] ∧
    (reload { page := { url := "gemini://h/a", links := [] },
              history := ["gemini://h/", "gemini://h/a"], histPos := 1,
              hasContent := true }
            { url := "gemini://h/a", links := ["x"] } true).2 =
      [.removePage "gemini://h/a", .removeFavicon "h",
       .handleURL "gemini://h/a", .applyBottomBar] := by
  have h := c6_reload_no_history
    { page := { url := "gemini://h/a", links := [] },
      history := ["gemini://h/", "gemini://h/a"], histPos := 1,
      hasContent := true }
    { url := "gemini://h/a", links := ["x"] } true (by decide)
  refine ⟨h.1, ?_⟩
  rw [h.2.2.1]
  decide

/-! ## Claim C7 -/

/-- Claim C7: when a reload fetch completes, the owning tab's state update
does not depend on whether that tab is still the visible one (the
resulting tab state is identical either way, and its page is the fetched
one), while the bottom-bar restore action runs exactly when the owning
tab is still current at completion time. -/
theorem c7_background_completion (t : TabM) (fetched : Page)
    (hc : t.hasContent = true) :
    (reload t fetched true).1 = (reload t fetched false).1 ∧
    (reload t fetched false).1.page = fetched ∧
    Action.applyBottomBar ∈ (reload t fetched true).2 ∧
    Action.applyBottomBar ∉ (reload t fetched false).2 := by
  have hne : ¬ t.hasContent = false := by rw [hc]; decide
  refine ⟨by simp [reload, hne], by simp [reload, hne, handleURLModel], ?_, ?_⟩
  · simp [reload, hne]
  · simp [reload, hne]

/-- Claim C7 witness: the same loaded tab as in the reload witness; with
the user switched away the fetched page still lands in the tab but no
bottom-bar action is emitted. -/
theorem c7_background_completion_witness :
    (reload { page := { url := "gemini://h/a", links := [] },
              history := ["gemini://h/a"], histPos := 0, hasContent := true }
            { url := "gemini://h/a", links := ["x"] } false).1.page =
      { url := "gemini://h/a", links := ["x"] } ∧
    Action.applyBottomBar ∉
      (reload { page := { url := "gemini://h/a", links := [] },
                history := ["gemini://h/a"], histPos := 0, hasContent := true }
              { url := "gemini://h/a", links := ["x"] } false).2 := by
  have h := c7_background_completion
    { page := { url := "gemini://h/a", links := [] },
      history := ["gemini://h/a"], histPos := 0, hasContent := true }
    { url := "gemini://h/a", links := ["x"] } (by decide)
  exact ⟨h.2.1, h.2.2.2⟩

/-! ## Claim C10 -/

/-- Claim C10: in the global key handler of a non-loading tab, the digit
key 0 stands for link number 10: with at least ten links on the page it
follows the tenth link (index 9), and with fewer than ten links it does
nothing. -/
theorem c10_zero_key_link_ten (pageURL : String) (links : List String) :
    (10 ≤ links.length →
      digitKeyActions '0' pageURL links =
        [.followLink pageURL (links.getD 9 "")]) ∧
    (links.length < 10 → digitKeyActions '0' pageURL links = []) := by
  have h0 : atoi (String.mk ['0']) = some 0 := by decide
  have h9 : ((10 : Int) - 1).toNat = 9 := by decide
  constructor
  · intro hlen
    simp only [digitKeyActions, h0, if_true, h9]
    rw [if_pos ⟨by exact_mod_cast hlen, by decide⟩]
  · intro hlen
    simp only [digitKeyActions, h0, if_true, h9]
    rw [if_neg]
    intro hcontra
    have h10 := hcontra.1
    omega

/-- Claim C10 witness: a page with exactly ten links follows the tenth on
key 0; a page with two links ignores the key. -/
theorem c10_zero_key_link_ten_witness :
    digitKeyActions '0' "gemini://host/"
      ["l1", "l2", "l3", "l4", "l5", "l6", "l7", "l8", "l9", "l10"] =
      [.followLink "gemini://host/" "l10"] ∧
    digitKeyActions '0' "gemini://host/" ["l1", "l2"] = [] := by
  constructor
  · have h := (c10_zero_key_link_ten "gemini://host/"
      ["l1", "l2", "l3", "l4", "l5", "l6", "l7", "l8", "l9", "l10"]).1
      (by decide)
    rw [h]
    decide
  · exact (c10_zero_key_link_ten "gemini://host/" ["l1", "l2"]).2 (by decide)

end Amfora
